import Mathlib

/-!
Verification development for the video-compression service.

Shallow embedding of the parts of the code base that the checked claims
concern: input validation (video-compressor.ts), the SSRF URL guard
(video-compressor.ts / image-compressor.ts), the webhook throttler
(image-compressor.ts webhook module), HLS master-playlist generation
(hls-converter.ts), HTTP range handling (content route), the ffmpeg
wrapper (compressVideo / segment-duration clamping), the download
helpers with redirect handling, and the worker / broker interaction
(compression worker processJob with the BullMQ job options set by
enqueueJob).

Conventions of the embedding:
  - JavaScript numbers are modelled as Int where subtraction occurs, as
    Nat for sizes and counts, and as Rat where the code divides
    (file-size megabytes, durations).
  - A hostname is represented by its dot-separated labels in the
    canonical form produced by the WHATWG URL parser (an IPv4 host is
    rendered as four decimal octets without leading zeros); string
    regular expressions of the source are translated into executable
    recognizers over those labels.
  - Filesystem and network effects are passed in explicitly: file
    existence and sizes are parameters, the network is a function from
    URL to response.
-/

namespace ERROR_CODES

/-- Error kind strings, from the ERROR_CODES constant of the types module. -/
def DURATION_TOO_LONG : String := "DURATION_TOO_LONG"

def FILE_TOO_LARGE : String := "FILE_TOO_LARGE"

def INVALID_CODEC : String := "INVALID_CODEC"

def VIDEO_CORRUPTED : String := "VIDEO_CORRUPTED"

def FILE_NOT_FOUND : String := "FILE_NOT_FOUND"

def INVALID_CONTAINER : String := "INVALID_CONTAINER"

def DOWNLOAD_FAILED : String := "DOWNLOAD_FAILED"

end ERROR_CODES

/-- VIDEO_VALIDATION.MAX_DURATION (seconds). -/
def VIDEO_VALIDATION_MAX_DURATION : ℚ := 300

/-- VIDEO_VALIDATION.MAX_SIZE_MB. -/
def VIDEO_VALIDATION_MAX_SIZE_MB : ℚ := 100

/-- VIDEO_VALIDATION.ALLOWED_CODECS. -/
def VIDEO_VALIDATION_ALLOWED_CODECS : List String :=
  ["h264", "hevc", "h265", "vp8", "vp9", "prores", "mpeg4", "av1"]

/-- VIDEO_VALIDATION.ALLOWED_CONTAINERS (declared in the types module;
see the theorems for whether it is enforced). -/
def VIDEO_VALIDATION_ALLOWED_CONTAINERS : List String :=
  ["mp4", "mov", "webm", "mkv"]

/-- The fields of the probe result (getVideoInfo) that validateInputVideo
and the playlist generator read. -/
structure VideoInfo where
  valid : Bool
  corrupted : Bool
  duration : ℚ
  video_codec : Option String
  container : String
deriving DecidableEq

/-- Validation outcome: the valid flag and the machine-readable error
kind (the human-readable message list of the source is elided). -/
structure ValidationResult where
  valid : Bool
  error_code : Option String
deriving DecidableEq

/-- validateInputVideo from video-compressor.ts. Parameters: whether the
file exists, its size in bytes, and the probe result. The checks run in
source order: existence, size, corruption, duration, codec. -/
def validateInputVideo (fileExists : Bool) (fileSize : ℕ) (videoInfo : VideoInfo) :
    ValidationResult :=
  if !fileExists then ⟨false, some ERROR_CODES.FILE_NOT_FOUND⟩
  else
    let fileSizeMB : ℚ := (fileSize : ℚ) / (1024 * 1024)
    if VIDEO_VALIDATION_MAX_SIZE_MB < fileSizeMB then
      ⟨false, some ERROR_CODES.FILE_TOO_LARGE⟩
    else if videoInfo.corrupted || !videoInfo.valid then
      ⟨false, some ERROR_CODES.VIDEO_CORRUPTED⟩
    else if VIDEO_VALIDATION_MAX_DURATION < videoInfo.duration then
      ⟨false, some ERROR_CODES.DURATION_TOO_LONG⟩
    else
      match videoInfo.video_codec with
      | some c =>
          if VIDEO_VALIDATION_ALLOWED_CODECS.contains c then ⟨true, none⟩
          else ⟨false, some ERROR_CODES.INVALID_CODEC⟩
      | none => ⟨true, none⟩

/-- ASCII lower-casing of a label, modelling String.prototype.toLowerCase
on hostnames. -/
def lowerStr (s : String) : String := String.mk (s.data.map Char.toLower)

/-- Recognizer for the regex fragment backslash-d repeated one to three
times, applied to one label. -/
def isDigits13 (s : String) : Bool :=
  decide (1 ≤ s.data.length) && decide (s.data.length ≤ 3) && s.data.all Char.isDigit

/-- Recognizer for the second-octet alternation of the 172.16/12 regex:
one of 16-19, 2 then any digit, 30 or 31. -/
def is172SecondOctet (s : String) : Bool :=
  match s.data with
  | ['1', x] => decide ('6' ≤ x) && decide (x ≤ '9')
  | ['2', x] => x.isDigit
  | ['3', x] => x == '0' || x == '1'
  | _ => false

/-- The privatePatterns check of validateDownloadUrl / validateImageUrl,
in source order: localhost, 127/8, 10/8, 172.16/12, 192.168/16,
169.254/16, 0.0.0.0, suffix .internal, suffix .local. The host is given
as dot-separated labels. -/
def isPrivateHost (host : List String) : Bool :=
  (host == ["localhost"]) ||
  (match host with
   | [a, b, c, d] => a == "127" && isDigits13 b && isDigits13 c && isDigits13 d
   | _ => false) ||
  (match host with
   | [a, b, c, d] => a == "10" && isDigits13 b && isDigits13 c && isDigits13 d
   | _ => false) ||
  (match host with
   | [a, b, c, d] => a == "172" && is172SecondOctet b && isDigits13 c && isDigits13 d
   | _ => false) ||
  (match host with
   | [a, b, c, d] => a == "192" && b == "168" && isDigits13 c && isDigits13 d
   | _ => false) ||
  (match host with
   | [a, b, c, d] => a == "169" && b == "254" && isDigits13 c && isDigits13 d
   | _ => false) ||
  (host == ["0", "0", "0", "0"]) ||
  (decide (2 ≤ host.length) && host.getLast? == some "internal") ||
  (decide (2 ≤ host.length) && host.getLast? == some "local")

/-- One allowlist entry check of validateDownloadUrl: an entry starting
with an asterisk label models a star-dot-suffix wildcard (exact suffix or
any subdomain); any other entry matches the exact host or any host that
ends with dot followed by the entry. Entries are lower-cased like the
source does. -/
def domainAllowedEntry (host : List String) (entry : List String) : Bool :=
  let entryL := entry.map lowerStr
  match entryL with
  | "*" :: suffixLabels =>
      host == suffixLabels ||
        (decide (suffixLabels.length < host.length) && suffixLabels.isSuffixOf host)
  | _ =>
      host == entryL ||
        (decide (entryL.length < host.length) && entryL.isSuffixOf host)

/-- The allowedDomains.some(...) loop of validateDownloadUrl. -/
def domainAllowed (allowedDomains : List (List String)) (host : List String) : Bool :=
  allowedDomains.any (fun a => domainAllowedEntry host a)

/-- A parsed URL: the protocol (with trailing colon, as in the URL API)
and the hostname labels. Path and query do not participate in
validation. -/
structure UrlParts where
  protocol : String
  hostLabels : List String
deriving DecidableEq

/-- Result shape of the URL validators. The source interpolates the host
into the not-in-allowed-list message and wraps it in quotes; the quotes
are elided here. -/
structure UrlCheck where
  valid : Bool
  error : Option String
deriving DecidableEq

/-- validateDownloadUrl from video-compressor.ts, from the protocol check
on (URL parsing happens before this model). The private-host check runs
before the allowlist, so it rejects even when the allowlist holds a star
entry or the host itself. -/
def validateDownloadUrl (allowedDomains : List (List String)) (u : UrlParts) : UrlCheck :=
  if !(["http:", "https:"].contains u.protocol) then
    ⟨false, some "Only HTTP/HTTPS URLs are allowed"⟩
  else
    let host := u.hostLabels.map lowerStr
    if isPrivateHost host then ⟨false, some "Private/internal hosts not allowed"⟩
    else if allowedDomains.contains ["*"] then ⟨true, none⟩
    else if domainAllowed allowedDomains host then ⟨true, none⟩
    else ⟨false, some ("Domain " ++ String.intercalate "." host ++ " not in allowed list")⟩

/-- validateImageUrl from image-compressor.ts; its body is identical to
validateDownloadUrl. -/
def validateImageUrl (allowedDomains : List (List String)) (u : UrlParts) : UrlCheck :=
  if !(["http:", "https:"].contains u.protocol) then
    ⟨false, some "Only HTTP/HTTPS URLs are allowed"⟩
  else
    let host := u.hostLabels.map lowerStr
    if isPrivateHost host then ⟨false, some "Private/internal hosts not allowed"⟩
    else if allowedDomains.contains ["*"] then ⟨true, none⟩
    else if domainAllowed allowedDomains host then ⟨true, none⟩
    else ⟨false, some ("Domain " ++ String.intercalate "." host ++ " not in allowed list")⟩

/-- Decimal digit characters, used to render canonical IPv4 octets. -/
def digitChar : ℕ → Char
  | 0 => '0'
  | 1 => '1'
  | 2 => '2'
  | 3 => '3'
  | 4 => '4'
  | 5 => '5'
  | 6 => '6'
  | 7 => '7'
  | 8 => '8'
  | _ => '9'

/-- Canonical decimal rendering of an IPv4 octet (no leading zeros), as
the WHATWG URL parser serializes IPv4 hosts. Defined for n below 1000;
octets are below 256. -/
def octetStr (n : ℕ) : String :=
  if n < 10 then String.mk [digitChar n]
  else if n < 100 then String.mk [digitChar (n / 10), digitChar (n % 10)]
  else String.mk [digitChar (n / 100), digitChar (n / 10 % 10), digitChar (n % 10)]

/-- WebhookThrottler.shouldSend from the webhook module, for one job: the
entry is the pair (lastProgress, lastSentTime) or none when absent (both
map lookups default to 0). Returns whether the event is sent and the
updated entry. -/
def shouldSend (entry : Option (ℤ × ℤ)) (now newProgress : ℤ) : Bool × Option (ℤ × ℤ) :=
  let lastProg : ℤ := (entry.map Prod.fst).getD 0
  let lastTime : ℤ := (entry.map Prod.snd).getD 0
  if 5 ≤ newProgress - lastProg ∨ 3000 < now - lastTime ∨ newProgress = 100 ∨
      (newProgress = 0 ∧ lastProg = 0) then
    (true, some (newProgress, now))
  else
    (false, entry)

/-- WebhookThrottler.cleanup: deletes the entry of the job. -/
def throttlerCleanup (_entry : Option (ℤ × ℤ)) : Option (ℤ × ℤ) := none

/-- sendProgressUpdate at the throttler level: returns whether the event
is dispatched to sendWebhook, with the updated throttler entry. -/
def sendProgressUpdate (entry : Option (ℤ × ℤ)) (now progress : ℤ) :
    Bool × Option (ℤ × ℤ) :=
  shouldSend entry now progress

/-- sendCompletionWebhook at the throttler level: clears the throttler
entry and dispatches unconditionally. -/
def sendCompletionWebhook (entry : Option (ℤ × ℤ)) : Bool × Option (ℤ × ℤ) :=
  (true, throttlerCleanup entry)

/-- sendFailureWebhook at the throttler level: clears the throttler entry
and dispatches unconditionally. -/
def sendFailureWebhook (entry : Option (ℤ × ℤ)) : Bool × Option (ℤ × ℤ) :=
  (true, throttlerCleanup entry)

/-- Modelled from the spec (claim C5 wording, for comparison with
shouldSend): send when the percent exceeds the previous by at least 5, or
at least 3 seconds have elapsed since the previous send, or the percent
is exactly 100, or the percent is 0 and the previous was also 0. -/
def shouldSendClaim (entry : Option (ℤ × ℤ)) (now newProgress : ℤ) : Bool :=
  let lastProg : ℤ := (entry.map Prod.fst).getD 0
  let lastTime : ℤ := (entry.map Prod.snd).getD 0
  decide (5 ≤ newProgress - lastProg) || decide (3000 ≤ now - lastTime) ||
    decide (newProgress = 100) || (decide (newProgress = 0) && decide (lastProg = 0))

/-- One row of the HLS_QUALITIES table of the types module. -/
structure HLSQuality where
  resolution : String
  bandwidth : ℕ
  avg_bandwidth : ℕ
  codecs : String
deriving DecidableEq

/-- HLS_QUALITIES from the types module; the generator only consults the
four defined keys, the catch-all is never reached there. -/
def HLS_QUALITIES (q : String) : HLSQuality :=
  match q with
  | "480p" => ⟨"854x480", 1300000, 900000, "avc1.4d001f,mp4a.40.2"⟩
  | "360p" => ⟨"640x360", 850000, 600000, "avc1.4d001f,mp4a.40.2"⟩
  | "240p" => ⟨"426x240", 550000, 400000, "avc1.4d0015,mp4a.40.2"⟩
  | "144p" => ⟨"256x144", 325000, 250000, "avc1.4d000d,mp4a.40.2"⟩
  | _ => ⟨"", 0, 0, ""⟩

/-- A quality present in convertedQualities. The probe field is some
(w, h) exactly when getVideoInfo on the compressed MP4 succeeded with
valid flag set and positive dimensions (the condition under which the
generator overrides the preset resolution). -/
structure ConvertedQuality where
  probe : Option (ℕ × ℕ)
deriving DecidableEq

/-- The actualResolution computation of generateMasterPlaylist: the probed
dimensions when available, else the preset resolution string. -/
def actualResolution (q : String) (probe : Option (ℕ × ℕ)) : String :=
  match probe with
  | some (w, h) => toString w ++ "x" ++ toString h
  | none => (HLS_QUALITIES q).resolution

/-- The qualityOrder list of generateMasterPlaylist (ascending
resolution). -/
def qualityOrder : List String := ["144p", "240p", "360p", "480p"]

/-- The variant loop of generateMasterPlaylist: for each quality in order,
skip it when absent from convertedQualities, otherwise append the
EXT-X-STREAM-INF attribute line and the variant playlist filename line. -/
def masterVariantEntries (conv : String → Option ConvertedQuality) :
    List String → String
  | [] => ""
  | q :: rest =>
      (match conv q with
       | none => ""
       | some cq =>
           "#EXT-X-STREAM-INF:BANDWIDTH=" ++ toString (HLS_QUALITIES q).bandwidth ++ "," ++
           "AVERAGE-BANDWIDTH=" ++ toString (HLS_QUALITIES q).avg_bandwidth ++ "," ++
           "RESOLUTION=" ++ actualResolution q cq.probe ++ "," ++
           "CODECS=\"" ++ (HLS_QUALITIES q).codecs ++ "\"," ++
           "NAME=\"" ++ q ++ "\"\n" ++
           q ++ ".m3u8\n") ++ masterVariantEntries conv rest

/-- generateMasterPlaylist from hls-converter.ts: the playlist content
written to master.m3u8. -/
def generateMasterPlaylist (conv : String → Option ConvertedQuality) : String :=
  "#EXTM3U\n" ++ "#EXT-X-VERSION:3\n" ++ "\n" ++ masterVariantEntries conv qualityOrder

/-- The JavaScript truthiness test result.success and result.playlist and
result.segmentCount that gates entry into convertedQualities: the
conversion must have succeeded and its segment count must be nonzero
(the playlist path string is always nonempty). The argument is none on
conversion failure, some n on success with n segments. -/
def hlsSegmentOk (seg : Option ℕ) : Bool :=
  match seg with
  | some n => n != 0
  | none => false

/-- The per-quality accumulation of convertToHLSStreaming: a quality ends
up in convertedQualities exactly when its compressed MP4 path exists and
convertToHLS reported success with a nonzero segment count. The probe
function gives the later getVideoInfo outcome used for the resolution. -/
def streamingConverted (mp4Exists : String → Bool) (seg : String → Option ℕ)
    (probe : String → Option (ℕ × ℕ)) (q : String) : Option ConvertedQuality :=
  if mp4Exists q && hlsSegmentOk (seg q) then some ⟨probe q⟩ else none

/-- The common validation and clamping tail of parseRangeHeader: reject
negative endpoints, inverted ranges, and a start at or past the file
size; clamp the end to the last byte. -/
def validateRange (start e fileSize : ℤ) : Option (ℤ × ℤ) :=
  if start < 0 ∨ e < 0 ∨ start > e ∨ fileSize ≤ start then none
  else some (start, min e (fileSize - 1))

/-- parseRangeHeader from the content route. The header is represented by
the two regex capture groups of bytes=(digits)-(digits): none means the
group matched the empty string; the outer none means the regex did not
match at all. -/
def parseRangeHeader (m : Option (Option ℕ × Option ℕ)) (fileSize : ℤ) :
    Option (ℤ × ℤ) :=
  match m with
  | none => none
  | some (none, some suffixLength) =>
      if (suffixLength : ℤ) ≤ 0 then none
      else validateRange (max 0 (fileSize - suffixLength)) (fileSize - 1) fileSize
  | some (some a, none) => validateRange a (fileSize - 1) fileSize
  | some (some a, some b) => validateRange a b fileSize
  | some (none, none) => none

/-- STREAMABLE_EXTENSIONS of the content route. -/
def STREAMABLE_EXTENSIONS : List String := [".mp4", ".webm", ".ts"]

/-- CHUNK_SIZE of the content route (64 KiB). -/
def CHUNK_SIZE : ℕ := 64 * 1024

/-- The response of the content GET handler for an existing regular file:
416 with a Content-Range header, 206 with Content-Length and
Content-Range, or 200 (streamed or read directly). -/
inductive ContentResponse where
  | rangeNotSatisfiable (contentRange : String)
  | partialContent (contentLength : ℤ) (contentRange : String)
  | fullStreamed (contentLength : ℤ)
  | fullDirect (contentLength : ℤ)
deriving DecidableEq

/-- The HTTP status code of each response shape. -/
def ContentResponse.status : ContentResponse → ℕ
  | .rangeNotSatisfiable _ => 416
  | .partialContent _ _ => 206
  | .fullStreamed _ => 200
  | .fullDirect _ => 200

/-- The GET handler of the content route after the path and existence
checks, for a regular file of the given size: range handling for
streamable extensions, otherwise full responses. -/
def contentGET (ext : String) (rangeHeader : Option (Option ℕ × Option ℕ))
    (fileSize : ℕ) : ContentResponse :=
  let isStreamable := STREAMABLE_EXTENSIONS.contains ext
  if rangeHeader.isSome && isStreamable then
    match parseRangeHeader rangeHeader (fileSize : ℤ) with
    | none => .rangeNotSatisfiable ("bytes */" ++ toString (fileSize : ℤ))
    | some (s, e) =>
        .partialContent (e - s + 1)
          ("bytes " ++ toString s ++ "-" ++ toString e ++ "/" ++ toString (fileSize : ℤ))
  else if isStreamable && decide (CHUNK_SIZE < fileSize) then
    .fullStreamed (fileSize : ℤ)
  else
    .fullDirect (fileSize : ℤ)

/-- An HTTP response as seen by the download helpers: status code, the
parsed Location header when present, and the byte size of the body that
would be written to disk. -/
structure HttpResp where
  statusCode : ℕ
  location : Option UrlParts
  size : ℕ
deriving DecidableEq

/-- Outcome of a download: URL validation failure, non-success status,
body below the minimum size, body above the image maximum, success with
the stored size, or fuel exhaustion (an artifact of modelling the
unbounded redirect recursion of the source; never reached when the fuel
exceeds the redirect chain length). -/
inductive DownloadOutcome where
  | invalid (error : String)
  | httpError (statusCode : ℕ)
  | tooSmall
  | tooLarge
  | ok (fileSize : ℕ)
  | outOfFuel
deriving DecidableEq

/-- downloadVideo from video-compressor.ts: validate the URL, fetch, on a
301 or 302 with a Location header restart the whole download at that
location (a recursive call, with no depth limit in the source), otherwise
require status 200 and a body of at least 1024 bytes. -/
def downloadVideo (allowedDomains : List (List String)) (web : UrlParts → HttpResp) :
    ℕ → UrlParts → DownloadOutcome
  | 0, _ => .outOfFuel
  | fuel + 1, url =>
      let v := validateDownloadUrl allowedDomains url
      if !v.valid then .invalid (v.error.getD "")
      else
        let response := web url
        if (response.statusCode == 301 || response.statusCode == 302) &&
            response.location.isSome then
          match response.location with
          | some redirectUrl => downloadVideo allowedDomains web fuel redirectUrl
          | none => .httpError response.statusCode
        else if response.statusCode != 200 then .httpError response.statusCode
        else if response.size < 1024 then .tooSmall
        else .ok response.size

/-- downloadImage from image-compressor.ts: same structure as
downloadVideo with the image URL validator, a 100-byte minimum and a
50 MiB maximum. -/
def downloadImage (allowedDomains : List (List String)) (web : UrlParts → HttpResp) :
    ℕ → UrlParts → DownloadOutcome
  | 0, _ => .outOfFuel
  | fuel + 1, url =>
      let v := validateImageUrl allowedDomains url
      if !v.valid then .invalid (v.error.getD "")
      else
        let response := web url
        if (response.statusCode == 301 || response.statusCode == 302) &&
            response.location.isSome then
          match response.location with
          | some redirectUrl => downloadImage allowedDomains web fuel redirectUrl
          | none => .httpError response.statusCode
        else if response.statusCode != 200 then .httpError response.statusCode
        else if response.size < 100 then .tooSmall
        else if (50 : ℚ) < (response.size : ℚ) / (1024 * 1024) then .tooLarge
        else .ok response.size

/-- Modelled from the spec (claim C8 wording, for comparison with
downloadVideo): follow exactly one level of 301/302 — the redirected
request is issued to the Location URL and a further 301/302 from that URL
is not followed (it then fails the status-200 check). -/
def downloadVideoOneLevelClaim (allowedDomains : List (List String))
    (web : UrlParts → HttpResp) (url : UrlParts) : DownloadOutcome :=
  let finish : UrlParts → DownloadOutcome := fun u =>
    let v := validateDownloadUrl allowedDomains u
    if !v.valid then .invalid (v.error.getD "")
    else
      let response := web u
      if response.statusCode != 200 then .httpError response.statusCode
      else if response.size < 1024 then .tooSmall
      else .ok response.size
  let v := validateDownloadUrl allowedDomains url
  if !v.valid then .invalid (v.error.getD "")
  else
    let response := web url
    if (response.statusCode == 301 || response.statusCode == 302) &&
        response.location.isSome then
      match response.location with
      | some redirectUrl => finish redirectUrl
      | none => .httpError response.statusCode
    else if response.statusCode != 200 then .httpError response.statusCode
    else if response.size < 1024 then .tooSmall
    else .ok response.size

/-- First URL of the redirect-chain scenario. -/
def urlA : UrlParts := ⟨"https:", ["a", "example", "com"]⟩

/-- Second URL of the redirect-chain scenario. -/
def urlB : UrlParts := ⟨"https:", ["b", "example", "com"]⟩

/-- Third URL of the redirect-chain scenario. -/
def urlC : UrlParts := ⟨"https:", ["c", "example", "com"]⟩

/-- A network where urlA 302-redirects to urlB, urlB 302-redirects to
urlC, and urlC serves a 4096-byte body. -/
def webChain : UrlParts → HttpResp := fun u =>
  if u = urlA then ⟨302, some urlB, 0⟩
  else if u = urlB then ⟨302, some urlC, 0⟩
  else if u = urlC then ⟨200, none, 4096⟩
  else ⟨404, none, 0⟩

/-- The outcome of one pipeline run as compressVideoJob reports it:
success flag and error text. compressVideoJob catches all internal
errors and always resolves with such a record. -/
structure JobResultModel where
  success : Bool
  error : Option String
deriving DecidableEq

/-- The inputs that determine the control flow of processJob in the
compression worker: whether compressVideoJob succeeded and, if not, its
error text (the HLS and thumbnail stages are non-fatal and do not affect
webhook dispatch or the returned result shape). -/
structure PipelineInput where
  compressSuccess : Bool
  compressError : String
deriving DecidableEq

/-- The observable effects of one processJob invocation: the returned
JobResult and how many failure / completion webhooks were dispatched
during the attempt. -/
structure ProcessEffects where
  result : JobResultModel
  failureWebhooks : ℕ
  completionWebhooks : ℕ
deriving DecidableEq

/-- processJob from the compression worker: on a failed pipeline run it
sends the failure webhook immediately and returns the failed result (it
does not throw); on success it sends the completion webhook and returns
the successful result. Its catch branch likewise sends the failure
webhook and returns a failed result. -/
def processJob (inp : PipelineInput) : ProcessEffects :=
  if inp.compressSuccess then ⟨⟨true, none⟩, 0, 1⟩
  else ⟨⟨false, some inp.compressError⟩, 1, 0⟩

/-- The processor closure the worker registers with the broker: it throws
only when the worker is shutting down, otherwise it resolves with
whatever processJob returns. -/
def workerProcessor (shuttingDown : Bool) (inp : PipelineInput) :
    Except String ProcessEffects :=
  if shuttingDown then Except.error "Worker is shutting down"
  else Except.ok (processJob inp)

/-- The job options enqueueJob passes to the broker: total attempts and
the exponential backoff base delay in milliseconds. -/
structure JobOptions where
  attempts : ℕ
  backoffDelay : ℕ
deriving DecidableEq

/-- The options used by enqueueJob in the queue module: 3 attempts,
exponential backoff with a 5000 ms base. -/
def enqueueJobOptions : JobOptions := ⟨3, 5000⟩

/-- BullMQ exponential backoff: after the n-th failed attempt the retry
is delayed by base times 2 to the (n-1). -/
def backoffDelayFor (opts : JobOptions) (attemptsMade : ℕ) : ℕ :=
  opts.backoffDelay * 2 ^ (attemptsMade - 1)

/-- Terminal broker states of a job. -/
inductive TerminalState where
  | completed
  | failed
deriving DecidableEq

/-- What the broker records once a job reaches a terminal state. -/
structure BrokerOutcome (R : Type) where
  state : TerminalState
  attemptsUsed : ℕ
  returnValue : Option R
  failedReason : Option String
  backoffDelays : List ℕ
deriving DecidableEq

/-- The broker attempt loop (BullMQ semantics): a resolving processor
completes the job; a throwing processor consumes an attempt and, while
attempts remain, schedules a retry after the exponential backoff delay;
when attempts are exhausted the job becomes failed. -/
def brokerRunAux {R : Type} (proc : ℕ → Except String R) (opts : JobOptions) :
    ℕ → ℕ → List ℕ → BrokerOutcome R
  | n, 0, delays => ⟨.failed, n - 1, none, some "no attempts configured", delays⟩
  | n, remaining + 1, delays =>
      match proc n with
      | .ok r => ⟨.completed, n, some r, none, delays⟩
      | .error e =>
          if remaining = 0 then ⟨.failed, n, none, some e, delays⟩
          else brokerRunAux proc opts (n + 1) remaining
                 (delays ++ [backoffDelayFor opts n])

/-- Run a job to its terminal state under the given options. -/
def brokerRun {R : Type} (proc : ℕ → Except String R) (opts : JobOptions) :
    BrokerOutcome R :=
  brokerRunAux proc opts 1 opts.attempts []

/-- The broker outcome of a claimed job whose pipeline attempt fails
deterministically (the worker is not shutting down). -/
def failingJobRun : BrokerOutcome ProcessEffects :=
  brokerRun (fun _ => workerProcessor false ⟨false, "All quality compressions failed"⟩)
    enqueueJobOptions

/-- What the transcoder run did, as observed by the compressVideo
callbacks: the error event (with the size of a leftover output file when
one was partially written), or the end event (with the size of the output
file when it exists). -/
inductive TranscodeEvent where
  | errored (message : String) (leftoverSize : Option ℕ)
  | ended (outputSize : Option ℕ)
deriving DecidableEq

/-- The result record compressVideo resolves with (elapsed time elided). -/
structure CompressResult where
  success : Bool
  error : Option String
deriving DecidableEq

/-- compressVideo outcome together with the final state of the output
path on disk (some size when a file remains, none when absent). -/
structure CompressOutcome where
  result : CompressResult
  outputFile : Option ℕ
deriving DecidableEq

/-- compressVideo from the ffmpeg module: missing input fails before
anything is written; the error handler unlinks any existing output before
resolving failure; the end handler requires the output to exist and to be
at least 1024 bytes for success (a too-small output is reported failed
but left on disk). -/
def compressVideo (inputExists : Bool) (ev : TranscodeEvent) : CompressOutcome :=
  if !inputExists then ⟨⟨false, some "Input file not found"⟩, none⟩
  else
    match ev with
    | .ended (some size) =>
        if size < 1024 then ⟨⟨false, some "Output file too small"⟩, some size⟩
        else ⟨⟨true, none⟩, some size⟩
    | .ended none => ⟨⟨false, some "Output file not created"⟩, none⟩
    | .errored msg _ => ⟨⟨false, some msg⟩, none⟩

/-- getHlsSegmentDuration from hls-converter.ts: the JavaScript
expression cfg.hls_time or-else 2 (0 falls back to the default), clamped
into the 2..3 range. -/
def getHlsSegmentDuration (hls_time : ℤ) : ℤ :=
  let duration := if hls_time = 0 then 2 else hls_time
  min (max duration 2) 3

/-- getHlsKeyframeInterval from the ffmpeg module; same body as
getHlsSegmentDuration. -/
def getHlsKeyframeInterval (hls_time : ℤ) : ℤ :=
  let duration := if hls_time = 0 then 2 else hls_time
  min (max duration 2) 3

/-- The force_key_frames output option compressVideo passes to the
transcoder, parameterized by the configured HLS_TIME. -/
def compressVideoForceKeyFramesArg (hls_time : ℤ) : String :=
  "-force_key_frames expr:gte(t,n_forced*" ++ toString (getHlsKeyframeInterval hls_time) ++ ")"

/-- The segment duration convertToHLSStreaming computes and passes to
convertToHLS as the hls_time argument. -/
def convertToHLSStreamingSegmentDuration (hls_time : ℤ) : ℤ :=
  getHlsSegmentDuration hls_time

/-- The class of hostnames the claim about the SSRF guard enumerates, in
canonical label form: loopback 127/8, private 10/8 and 172.16/12 and
192.168/16, link-local 169.254/16, 0.0.0.0, localhost, and hosts ending
in a .internal or .local label. IPv4 octets appear in their canonical
decimal rendering. -/
def SpecPrivateHost (host : List String) : Prop :=
  (∃ b c d : ℕ, b < 256 ∧ c < 256 ∧ d < 256 ∧
      host = ["127", octetStr b, octetStr c, octetStr d]) ∨
  (∃ b c d : ℕ, b < 256 ∧ c < 256 ∧ d < 256 ∧
      host = ["10", octetStr b, octetStr c, octetStr d]) ∨
  (∃ b c d : ℕ, 16 ≤ b ∧ b ≤ 31 ∧ c < 256 ∧ d < 256 ∧
      host = ["172", octetStr b, octetStr c, octetStr d]) ∨
  (∃ c d : ℕ, c < 256 ∧ d < 256 ∧ host = ["192", "168", octetStr c, octetStr d]) ∨
  (∃ c d : ℕ, c < 256 ∧ d < 256 ∧ host = ["169", "254", octetStr c, octetStr d]) ∨
  host = ["0", "0", "0", "0"] ∨
  host = ["localhost"] ∨
  (∃ front, front ≠ [] ∧ host = front ++ ["internal"]) ∨
  (∃ front, front ≠ [] ∧ host = front ++ ["local"])

theorem digitChar_isDigit (m : ℕ) : (digitChar m).isDigit = true := by
  rcases m with _|_|_|_|_|_|_|_|_|_|m <;> rfl

theorem digitChar_toLower (m : ℕ) : Char.toLower (digitChar m) = digitChar m := by
  rcases m with _|_|_|_|_|_|_|_|_|_|m <;> rfl

theorem lowerStr_octetStr (n : ℕ) : lowerStr (octetStr n) = octetStr n := by
  unfold octetStr
  split
  · simp [lowerStr, digitChar_toLower]
  · split
    · simp [lowerStr, digitChar_toLower]
    · simp [lowerStr, digitChar_toLower]

theorem isDigits13_octetStr (n : ℕ) : isDigits13 (octetStr n) = true := by
  unfold octetStr
  split
  · simp [isDigits13, digitChar_isDigit]
  · split
    · simp [isDigits13, digitChar_isDigit]
    · simp [isDigits13, digitChar_isDigit]

theorem is172SecondOctet_octetStr (b : ℕ) (h1 : 16 ≤ b) (h2 : b ≤ 31) :
    is172SecondOctet (octetStr b) = true := by
  interval_cases b <;> decide

theorem isPrivateHost_of_spec (host : List String) (h : SpecPrivateHost host) :
    isPrivateHost (host.map lowerStr) = true := by
  rcases h with ⟨b, c, d, _, _, _, rfl⟩ | ⟨b, c, d, _, _, _, rfl⟩ |
    ⟨b, c, d, hb1, hb2, _, _, rfl⟩ | ⟨c, d, _, _, rfl⟩ | ⟨c, d, _, _, rfl⟩ |
    rfl | rfl | ⟨front, hne, rfl⟩ | ⟨front, hne, rfl⟩
  · simp only [List.map_cons, List.map_nil, lowerStr_octetStr,
      (show lowerStr "127" = "127" by decide)]
    simp [isPrivateHost, isDigits13_octetStr]
  · simp only [List.map_cons, List.map_nil, lowerStr_octetStr,
      (show lowerStr "10" = "10" by decide)]
    simp [isPrivateHost, isDigits13_octetStr]
  · have h172 := is172SecondOctet_octetStr b hb1 hb2
    simp only [List.map_cons, List.map_nil, lowerStr_octetStr,
      (show lowerStr "172" = "172" by decide)]
    simp [isPrivateHost, isDigits13_octetStr, h172]
  · simp only [List.map_cons, List.map_nil, lowerStr_octetStr,
      (show lowerStr "192" = "192" by decide), (show lowerStr "168" = "168" by decide)]
    simp [isPrivateHost, isDigits13_octetStr]
  · simp only [List.map_cons, List.map_nil, lowerStr_octetStr,
      (show lowerStr "169" = "169" by decide), (show lowerStr "254" = "254" by decide)]
    simp [isPrivateHost, isDigits13_octetStr]
  · decide
  · decide
  · have h1 : 0 < front.length := List.length_pos.mpr hne
    have hlen : 2 ≤ (front.map lowerStr ++ ["internal"]).length := by
      simp only [List.length_append, List.length_map, List.length_cons, List.length_nil]
      omega
    have hlast : (front.map lowerStr ++ ["internal"]).getLast? = some "internal" :=
      List.getLast?_concat _
    rw [List.map_append]
    simp only [List.map_cons, List.map_nil, (show lowerStr "internal" = "internal" by decide)]
    simp [isPrivateHost, hlast, hlen]
    exact Or.inr h1
  · have h1 : 0 < front.length := List.length_pos.mpr hne
    have hlen : 2 ≤ (front.map lowerStr ++ ["local"]).length := by
      simp only [List.length_append, List.length_map, List.length_cons, List.length_nil]
      omega
    have hlast : (front.map lowerStr ++ ["local"]).getLast? = some "local" :=
      List.getLast?_concat _
    rw [List.map_append]
    simp only [List.map_cons, List.map_nil, (show lowerStr "local" = "local" by decide)]
    simp [isPrivateHost, hlast, hlen]
    exact Or.inr h1

/-- C2: every download or image URL whose hostname is loopback, private,
link-local, 0.0.0.0, localhost, or ends in .internal or .local is
rejected by URL validation with the private-host error, for every
configured allowlist (including a star entry or an entry naming the host
itself), and the download helpers return that failure for every network,
so no connection is made. -/
theorem privateHosts_always_rejected :
    ∀ (allowedDomains : List (List String)) (proto : String) (host : List String),
      (proto = "http:" ∨ proto = "https:") →
      SpecPrivateHost host →
      validateDownloadUrl allowedDomains ⟨proto, host⟩ =
          ⟨false, some "Private/internal hosts not allowed"⟩ ∧
      validateImageUrl allowedDomains ⟨proto, host⟩ =
          ⟨false, some "Private/internal hosts not allowed"⟩ ∧
      (∀ (web : UrlParts → HttpResp) (fuel : ℕ),
        downloadVideo allowedDomains web (fuel + 1) ⟨proto, host⟩ =
          DownloadOutcome.invalid "Private/internal hosts not allowed" ∧
        downloadImage allowedDomains web (fuel + 1) ⟨proto, host⟩ =
          DownloadOutcome.invalid "Private/internal hosts not allowed") := by
  intro allowedDomains proto host hproto hspec
  have hpriv : isPrivateHost (host.map lowerStr) = true := isPrivateHost_of_spec host hspec
  rcases hproto with rfl | rfl <;>
    refine ⟨?_, ?_, fun web fuel => ⟨?_, ?_⟩⟩ <;>
    simp [downloadVideo, downloadImage, validateDownloadUrl, validateImageUrl, hpriv]

/-- Witness for C2 at the link-local metadata host 169.254.169.254 with a
wildcard allowlist. -/
theorem privateHosts_always_rejected_witness :
    validateDownloadUrl [["*"]] ⟨"http:", ["169", "254", "169", "254"]⟩ =
      ⟨false, some "Private/internal hosts not allowed"⟩ :=
  (privateHosts_always_rejected [["*"]] "http:" ["169", "254", "169", "254"]
    (Or.inl rfl)
    (Or.inr (Or.inr (Or.inr (Or.inr (Or.inl
      ⟨169, 254, by norm_num, by norm_num, by decide⟩)))))).1

theorem fileSizeMB_le_iff (size : ℕ) :
    ((size : ℚ) / (1024 * 1024) ≤ 100) ↔ size ≤ 104857600 := by
  rw [div_le_iff₀ (show (0 : ℚ) < 1024 * 1024 by norm_num)]
  rw [show (100 : ℚ) * (1024 * 1024) = ((104857600 : ℕ) : ℚ) by norm_num]
  exact_mod_cast Iff.rfl

theorem validateInputVideo_passes (info : VideoInfo) (size : ℕ)
    (hcor : info.corrupted = false) (hval : info.valid = true)
    (hcodec : ∀ c, info.video_codec = some c →
      VIDEO_VALIDATION_ALLOWED_CODECS.contains c = true)
    (hdur : info.duration ≤ 300) (hsize : size ≤ 104857600) :
    validateInputVideo true size info = ⟨true, none⟩ := by
  have hsz : ¬(VIDEO_VALIDATION_MAX_SIZE_MB < (size : ℚ) / (1024 * 1024)) := by
    rw [VIDEO_VALIDATION_MAX_SIZE_MB, not_lt]
    exact (fileSizeMB_le_iff size).mpr hsize
  have hcor2 : ¬((info.corrupted || !info.valid) = true) := by
    rw [hcor, hval]; decide
  have hd : ¬(VIDEO_VALIDATION_MAX_DURATION < info.duration) := by
    rw [VIDEO_VALIDATION_MAX_DURATION]; exact not_lt.mpr hdur
  simp only [validateInputVideo]
  rw [if_neg (by decide), if_neg hsz, if_neg hcor2, if_neg hd]
  cases hc : info.video_codec with
  | some c =>
      have hmem : c ∈ VIDEO_VALIDATION_ALLOWED_CODECS := by simpa using hcodec c hc
      simp [hmem]
  | none => rfl

/-- C3: input validation accepts a 300.0 second video and rejects a
300.01 second one with the DURATION_TOO_LONG kind; it accepts a file of
exactly 100 MiB (104857600 bytes) and rejects one of 100 MiB plus one
byte with the FILE_TOO_LARGE kind. Hypotheses state that the remaining
checks of the otherwise-valid input pass. -/
theorem validateInputVideo_boundaries :
    (∀ (info : VideoInfo) (size : ℕ),
        info.corrupted = false → info.valid = true →
        (∀ c, info.video_codec = some c →
          VIDEO_VALIDATION_ALLOWED_CODECS.contains c = true) →
        info.duration = 300 → size ≤ 104857600 →
        validateInputVideo true size info = ⟨true, none⟩) ∧
    (∀ (info : VideoInfo) (size : ℕ),
        info.corrupted = false → info.valid = true →
        info.duration = 30001 / 100 → size ≤ 104857600 →
        validateInputVideo true size info =
          ⟨false, some ERROR_CODES.DURATION_TOO_LONG⟩) ∧
    (∀ (info : VideoInfo),
        info.corrupted = false → info.valid = true →
        (∀ c, info.video_codec = some c →
          VIDEO_VALIDATION_ALLOWED_CODECS.contains c = true) →
        info.duration ≤ 300 →
        validateInputVideo true (100 * 1024 * 1024) info = ⟨true, none⟩) ∧
    (∀ (info : VideoInfo),
        validateInputVideo true (100 * 1024 * 1024 + 1) info =
          ⟨false, some ERROR_CODES.FILE_TOO_LARGE⟩) := by
  refine ⟨?_, ?_, ?_, ?_⟩
  · intro info size hcor hval hcodec hdur hsize
    exact validateInputVideo_passes info size hcor hval hcodec (le_of_eq hdur) hsize
  · intro info size hcor hval hdur hsize
    have hsz : ¬(VIDEO_VALIDATION_MAX_SIZE_MB < (size : ℚ) / (1024 * 1024)) := by
      rw [VIDEO_VALIDATION_MAX_SIZE_MB, not_lt]
      exact (fileSizeMB_le_iff size).mpr hsize
    have hcor2 : ¬((info.corrupted || !info.valid) = true) := by
      rw [hcor, hval]; decide
    have hd : VIDEO_VALIDATION_MAX_DURATION < info.duration := by
      rw [VIDEO_VALIDATION_MAX_DURATION, hdur]; norm_num
    simp only [validateInputVideo]
    rw [if_neg (by decide), if_neg hsz, if_neg hcor2, if_pos hd]
  · intro info hcor hval hcodec hdur
    exact validateInputVideo_passes info (100 * 1024 * 1024) hcor hval hcodec hdur
      (by norm_num)
  · intro info
    have hsz : VIDEO_VALIDATION_MAX_SIZE_MB <
        ((100 * 1024 * 1024 + 1 : ℕ) : ℚ) / (1024 * 1024) := by
      rw [VIDEO_VALIDATION_MAX_SIZE_MB, lt_iff_not_le, fileSizeMB_le_iff]
      norm_num
    simp only [validateInputVideo]
    rw [if_neg (by decide), if_pos hsz]

/-- Witness for C3: a concrete well-formed h264 input at each boundary. -/
theorem validateInputVideo_boundaries_witness :
    validateInputVideo true 104857600 ⟨true, false, 300, some "h264", "mp4"⟩ =
      ⟨true, none⟩ ∧
    validateInputVideo true 104857600 ⟨true, false, 30001 / 100, some "h264", "mp4"⟩ =
      ⟨false, some ERROR_CODES.DURATION_TOO_LONG⟩ ∧
    validateInputVideo true (100 * 1024 * 1024 + 1) ⟨true, false, 10, some "h264", "mp4"⟩ =
      ⟨false, some ERROR_CODES.FILE_TOO_LARGE⟩ :=
  ⟨validateInputVideo_boundaries.1 ⟨true, false, 300, some "h264", "mp4"⟩ 104857600
      rfl rfl (fun c hc => by cases hc; decide) rfl (by norm_num),
   validateInputVideo_boundaries.2.1 ⟨true, false, 30001 / 100, some "h264", "mp4"⟩ 104857600
      rfl rfl rfl (by norm_num),
   validateInputVideo_boundaries.2.2.2 ⟨true, false, 10, some "h264", "mp4"⟩⟩

/-- C4: validateInputVideo performs no container check at all — a video
whose container is avi (not among mp4, mov, webm, mkv) passes validation,
and no input ever produces the INVALID_CONTAINER error kind, although
that kind and the allowed-container list are declared in the types
module. -/
theorem validateInputVideo_no_container_check :
    validateInputVideo true 1048576 ⟨true, false, 10, some "h264", "avi"⟩ = ⟨true, none⟩ ∧
    (∀ (fileExists : Bool) (size : ℕ) (info : VideoInfo),
      (validateInputVideo fileExists size info).error_code ≠
        some ERROR_CODES.INVALID_CONTAINER) := by
  constructor
  · exact validateInputVideo_passes ⟨true, false, 10, some "h264", "avi"⟩ 1048576
      rfl rfl (fun c hc => by cases hc; decide) (by norm_num) (by norm_num)
  · intro fileExists size info
    simp only [validateInputVideo]
    repeat' split
    all_goals simp [ERROR_CODES.FILE_NOT_FOUND, ERROR_CODES.FILE_TOO_LARGE,
      ERROR_CODES.VIDEO_CORRUPTED, ERROR_CODES.DURATION_TOO_LONG,
      ERROR_CODES.INVALID_CODEC, ERROR_CODES.INVALID_CONTAINER]

/-- C5 counterexample: with a last-sent progress of 50 at time 10000 and a
new progress of 52 at time 13000, exactly 3000 ms (3 s) have elapsed; the
claim condition (at least 3 s elapsed) says the event is sent, but the
throttler condition of the code is strictly greater than 3000 ms, so the
event is skipped and the entry left unchanged. -/
theorem shouldSend_boundary_counterexample :
    shouldSendClaim (some (50, 10000)) 13000 52 = true ∧
    (shouldSend (some (50, 10000)) 13000 52).1 = false ∧
    sendProgressUpdate (some (50, 10000)) 13000 52 = (false, some (50, 10000)) := by
  decide

/-- C5 amended: a progress webhook is dispatched iff the new percent
exceeds the last-sent percent by at least 5, or MORE than 3000 ms have
elapsed since the last send (strict inequality), or the percent is
exactly 100, or the percent is 0 and the previous was also 0; completion
and failure webhooks always dispatch and remove the throttler entry. -/
theorem progressWebhook_send_condition :
    (∀ (entry : Option (ℤ × ℤ)) (now p : ℤ),
        (sendProgressUpdate entry now p).1 = true ↔
          (5 ≤ p - (entry.map Prod.fst).getD 0 ∨
           3000 < now - (entry.map Prod.snd).getD 0 ∨
           p = 100 ∨ (p = 0 ∧ (entry.map Prod.fst).getD 0 = 0))) ∧
    (∀ entry : Option (ℤ × ℤ), sendCompletionWebhook entry = (true, none)) ∧
    (∀ entry : Option (ℤ × ℤ), sendFailureWebhook entry = (true, none)) := by
  refine ⟨?_, fun _ => rfl, fun _ => rfl⟩
  intro entry now p
  simp only [sendProgressUpdate, shouldSend]
  split
  · simp_all
  · simp_all

theorem masterVariantEntries_eq (mp4Exists : String → Bool) (seg : String → Option ℕ)
    (probe : String → Option (ℕ × ℕ)) (l : List String) :
    masterVariantEntries (streamingConverted mp4Exists seg probe) l =
      ((l.filter (fun q => mp4Exists q && hlsSegmentOk (seg q))).map (fun q =>
        "#EXT-X-STREAM-INF:BANDWIDTH=" ++ toString (HLS_QUALITIES q).bandwidth ++ "," ++
        "AVERAGE-BANDWIDTH=" ++ toString (HLS_QUALITIES q).avg_bandwidth ++ "," ++
        "RESOLUTION=" ++ actualResolution q (probe q) ++ "," ++
        "CODECS=\"" ++ (HLS_QUALITIES q).codecs ++ "\"," ++
        "NAME=\"" ++ q ++ "\"\n" ++
        q ++ ".m3u8\n")).foldr (· ++ ·) "" := by
  induction l with
  | nil => rfl
  | cons q rest ih =>
      simp only [masterVariantEntries, streamingConverted, List.filter_cons]
      by_cases h : (mp4Exists q && hlsSegmentOk (seg q)) = true
      · simp [h, ih]
      · simp [h, ih]

/-- C6: the master playlist produced by the HLS streaming conversion
starts with EXTM3U and EXT-X-VERSION:3 and then contains, for exactly the
qualities whose compressed MP4 existed and whose segmentation succeeded
with a nonzero segment count, in ascending resolution order 144p, 240p,
360p, 480p, one EXT-X-STREAM-INF line carrying BANDWIDTH,
AVERAGE-BANDWIDTH, RESOLUTION, CODECS and NAME, followed on the next line
by the playlist filename of that variant. -/
theorem generateMasterPlaylist_structure :
    ∀ (mp4Exists : String → Bool) (seg : String → Option ℕ)
      (probe : String → Option (ℕ × ℕ)),
      generateMasterPlaylist (streamingConverted mp4Exists seg probe) =
        "#EXTM3U\n" ++ "#EXT-X-VERSION:3\n" ++ "\n" ++
          ((["144p", "240p", "360p", "480p"].filter
              (fun q => mp4Exists q && hlsSegmentOk (seg q))).map (fun q =>
            "#EXT-X-STREAM-INF:BANDWIDTH=" ++ toString (HLS_QUALITIES q).bandwidth ++ "," ++
            "AVERAGE-BANDWIDTH=" ++ toString (HLS_QUALITIES q).avg_bandwidth ++ "," ++
            "RESOLUTION=" ++ actualResolution q (probe q) ++ "," ++
            "CODECS=\"" ++ (HLS_QUALITIES q).codecs ++ "\"," ++
            "NAME=\"" ++ q ++ "\"\n" ++
            q ++ ".m3u8\n")).foldr (· ++ ·) "" := by
  intro mp4Exists seg probe
  rw [generateMasterPlaylist, qualityOrder, masterVariantEntries_eq]

/-- C7: on a streamable file, an explicit range bytes=a-b with
0 ≤ a ≤ b < size yields 206 with Content-Length b - a + 1 and
Content-Range bytes a-b/size; the suffix range bytes=-500 on a 200-byte
file yields the whole file with 206; a range whose start is at or past
the file size yields 416 with Content-Range bytes star/size. -/
theorem contentGET_range_requests :
    (∀ (ext : String) (a b size : ℕ),
        STREAMABLE_EXTENSIONS.contains ext = true →
        a ≤ b → b < size →
        contentGET ext (some (some a, some b)) size =
          ContentResponse.partialContent ((b : ℤ) - (a : ℤ) + 1)
            ("bytes " ++ toString (a : ℤ) ++ "-" ++ toString (b : ℤ) ++ "/" ++
              toString (size : ℤ)) ∧
        (contentGET ext (some (some a, some b)) size).status = 206) ∧
    (contentGET ".mp4" (some (none, some 500)) 200 =
        ContentResponse.partialContent 200 "bytes 0-199/200" ∧
      (contentGET ".mp4" (some (none, some 500)) 200).status = 206) ∧
    (∀ (ext : String) (a size : ℕ) (b : Option ℕ),
        STREAMABLE_EXTENSIONS.contains ext = true →
        size ≤ a →
        contentGET ext (some (some a, b)) size =
          ContentResponse.rangeNotSatisfiable ("bytes */" ++ toString (size : ℤ)) ∧
        (contentGET ext (some (some a, b)) size).status = 416) := by
  refine ⟨?_, ⟨by decide, by decide⟩, ?_⟩
  · intro ext a b size hext hab hbs
    have hparse : parseRangeHeader (some (some a, some b)) (size : ℤ) =
        some ((a : ℤ), (b : ℤ)) := by
      simp only [parseRangeHeader, validateRange]
      rw [if_neg, min_eq_left (by omega)]
      push_neg
      refine ⟨by omega, by omega, by omega, by omega⟩
    have hmain : contentGET ext (some (some a, some b)) size =
        ContentResponse.partialContent ((b : ℤ) - (a : ℤ) + 1)
          ("bytes " ++ toString (a : ℤ) ++ "-" ++ toString (b : ℤ) ++ "/" ++
            toString (size : ℤ)) := by
      simp only [contentGET, hext, Option.isSome_some, Bool.and_self, if_pos, hparse]
    exact ⟨hmain, by rw [hmain]; rfl⟩
  · intro ext a size b hext hsize
    have hparse : parseRangeHeader (some (some a, b)) (size : ℤ) = none := by
      cases b with
      | none =>
          simp only [parseRangeHeader, validateRange]
          rw [if_pos]
          right; right; right
          exact_mod_cast hsize
      | some b0 =>
          simp only [parseRangeHeader, validateRange]
          rw [if_pos]
          right; right; right
          exact_mod_cast hsize
    have hmain : contentGET ext (some (some a, b)) size =
        ContentResponse.rangeNotSatisfiable ("bytes */" ++ toString (size : ℤ)) := by
      simp only [contentGET, hext, Option.isSome_some, Bool.and_self, if_pos, hparse]
    exact ⟨hmain, by rw [hmain]; rfl⟩

/-- Witness for C7: concrete range requests on a 10-byte mp4 file. -/
theorem contentGET_range_requests_witness :
    (contentGET ".mp4" (some (some 2, some 5)) 10 =
        ContentResponse.partialContent 4 "bytes 2-5/10" ∧
      (contentGET ".mp4" (some (some 2, some 5)) 10).status = 206) ∧
    (contentGET ".ts" (some (some 10, none)) 10 =
        ContentResponse.rangeNotSatisfiable "bytes */10" ∧
      (contentGET ".ts" (some (some 10, none)) 10).status = 416) :=
  ⟨contentGET_range_requests.1 ".mp4" 2 5 10 (by decide) (by norm_num) (by norm_num),
   contentGET_range_requests.2.2 ".ts" 10 10 none (by decide) (by norm_num)⟩

/-- C9: for every configured HLS_TIME value the segment duration is
min (max HLS_TIME 2) 3, hence always within 2..3 seconds, and the
forced-keyframe interval used by the transcode options equals that same
clamped duration, as does the segment duration the streaming conversion
passes to the segmenter. -/
theorem hlsSegmentDuration_clamped :
    ∀ t : ℤ,
      getHlsSegmentDuration t = min (max t 2) 3 ∧
      2 ≤ getHlsSegmentDuration t ∧ getHlsSegmentDuration t ≤ 3 ∧
      getHlsKeyframeInterval t = getHlsSegmentDuration t ∧
      compressVideoForceKeyFramesArg t =
        "-force_key_frames expr:gte(t,n_forced*" ++
          toString (getHlsSegmentDuration t) ++ ")" ∧
      convertToHLSStreamingSegmentDuration t = getHlsSegmentDuration t := by
  intro t
  have h1 : getHlsSegmentDuration t = min (max t 2) 3 := by
    unfold getHlsSegmentDuration
    by_cases h : t = 0
    · subst h; decide
    · simp [h]
  refine ⟨h1, ?_, ?_, rfl, rfl, rfl⟩
  · rw [h1]; omega
  · rw [h1]; omega

/-- C10: when a transcode fails with a transcoder error, no output file
is left on disk (any partially-written file is unlinked before failure is
reported), and a transcode reported successful always has an output file
of at least 1024 bytes on disk. -/
theorem compressVideo_error_leaves_no_output :
    (∀ (inputExists : Bool) (msg : String) (leftover : Option ℕ),
        (compressVideo inputExists (TranscodeEvent.errored msg leftover)).outputFile =
          none ∧
        (compressVideo inputExists (TranscodeEvent.errored msg leftover)).result.success =
          false) ∧
    (∀ (inputExists : Bool) (ev : TranscodeEvent),
        (compressVideo inputExists ev).result.success = true →
        ∃ n, (compressVideo inputExists ev).outputFile = some n ∧ 1024 ≤ n) := by
  constructor
  · intro inputExists msg leftover
    cases inputExists <;> simp [compressVideo]
  · intro inputExists ev h
    cases inputExists with
    | false => simp [compressVideo] at h
    | true =>
        cases ev with
        | errored msg leftover => simp [compressVideo] at h
        | ended outputSize =>
            cases outputSize with
            | none => simp [compressVideo] at h
            | some s =>
                by_cases hs : s < 1024
                · simp [compressVideo, hs] at h
                · refine ⟨s, ?_, by omega⟩
                  simp [compressVideo, hs]

/-- Witness for C10: a 2048-byte output reported successful is on disk. -/
theorem compressVideo_error_leaves_no_output_witness :
    ∃ n, (compressVideo true (TranscodeEvent.ended (some 2048))).outputFile = some n ∧
      1024 ≤ n :=
  compressVideo_error_leaves_no_output.2 true (TranscodeEvent.ended (some 2048)) rfl

/-- C1 counterexample: a claimed job whose pipeline attempt fails (for
example all quality compressions failed) is NOT retried by the broker:
the worker catches the failure and resolves, so the job terminates as
completed after a single attempt with no backoff delays, and the failure
webhook is dispatched during that first attempt — not only after
exhausting 3 attempts, and the job never reaches the failed terminal
state. -/
theorem processJob_failure_not_retried :
    failingJobRun.state = TerminalState.completed ∧
    failingJobRun.state ≠ TerminalState.failed ∧
    failingJobRun.attemptsUsed = 1 ∧
    failingJobRun.backoffDelays = [] ∧
    failingJobRun.returnValue =
      some ⟨⟨false, some "All quality compressions failed"⟩, 1, 0⟩ := by
  refine ⟨rfl, by decide, rfl, rfl, rfl⟩

/-- C1 amended: when the pipeline attempt of a claimed job fails, the
worker catches the failure, dispatches the failure webhook during that
same (first) attempt, and resolves with a failure result, so the broker
marks the job completed after one attempt with no retries; the configured
retry policy of enqueueJob (3 attempts, exponential backoff with 5 s
base, delays 5 s then 10 s) takes effect only when the processor itself
throws, for example during shutdown, in which case the job reaches the
failed terminal state after the attempts are exhausted. -/
theorem processJob_failure_first_attempt :
    (∀ inp : PipelineInput, inp.compressSuccess = false →
        brokerRun (fun _ => workerProcessor false inp) enqueueJobOptions =
          ⟨TerminalState.completed, 1, some ⟨⟨false, some inp.compressError⟩, 1, 0⟩,
            none, []⟩) ∧
    (∀ e : String,
        brokerRun (fun _ => (Except.error e : Except String ProcessEffects))
            enqueueJobOptions =
          ⟨TerminalState.failed, 3, none, some e, [5000, 10000]⟩) := by
  constructor
  · intro inp h
    simp [brokerRun, brokerRunAux, enqueueJobOptions, workerProcessor, processJob, h]
  · intro e
    rfl

/-- Witness for C1 at a concrete failing pipeline run. -/
theorem processJob_failure_first_attempt_witness :
    brokerRun (fun _ => workerProcessor false ⟨false, "boom"⟩) enqueueJobOptions =
      ⟨TerminalState.completed, 1, some ⟨⟨false, some "boom"⟩, 1, 0⟩, none, []⟩ :=
  processJob_failure_first_attempt.1 ⟨false, "boom"⟩ rfl

theorem downloadVideo_step (allowed : List (List String)) (web : UrlParts → HttpResp)
    (fuel : ℕ) (url loc : UrlParts)
    (h1 : (validateDownloadUrl allowed url).valid = true)
    (h2 : (web url).statusCode = 301 ∨ (web url).statusCode = 302)
    (h3 : (web url).location = some loc) :
    downloadVideo allowed web (fuel + 1) url = downloadVideo allowed web fuel loc := by
  rcases h2 with h | h <;> simp [downloadVideo, h1, h, h3]

theorem downloadImage_step (allowed : List (List String)) (web : UrlParts → HttpResp)
    (fuel : ℕ) (url loc : UrlParts)
    (h1 : (validateImageUrl allowed url).valid = true)
    (h2 : (web url).statusCode = 301 ∨ (web url).statusCode = 302)
    (h3 : (web url).location = some loc) :
    downloadImage allowed web (fuel + 1) url = downloadImage allowed web fuel loc := by
  rcases h2 with h | h <;> simp [downloadImage, h1, h, h3]

/-- C8 counterexample: on a chain where urlA 302-redirects to urlB and
urlB 302-redirects to urlC, the download helpers follow BOTH redirects
and succeed with the body served by urlC, while the claimed
one-level-only behaviour would stop at the second redirect and fail with
HTTP 302. -/
theorem downloadVideo_redirect_chain_counterexample :
    downloadVideo [["*"]] webChain 10 urlA = DownloadOutcome.ok 4096 ∧
    downloadImage [["*"]] webChain 10 urlA = DownloadOutcome.ok 4096 ∧
    downloadVideoOneLevelClaim [["*"]] webChain urlA = DownloadOutcome.httpError 302 := by
  refine ⟨by decide, ?_, by decide⟩
  rw [downloadImage_step [["*"]] webChain 9 urlA urlB (by decide) (Or.inr (by decide))
      (by decide),
    downloadImage_step [["*"]] webChain 8 urlB urlC (by decide) (Or.inr (by decide))
      (by decide)]
  have hq : ¬((50 : ℚ) < (4096 : ℚ) / (1024 * 1024)) := by norm_num
  have hv : (validateImageUrl [["*"]] urlC).valid = true := by decide
  have hw : webChain urlC = ⟨200, none, 4096⟩ := by decide
  rw [show (8 : ℕ) = 7 + 1 by rfl]
  simp only [downloadImage]
  simp [hv, hw, hq]

/-- C8 amended: each 301/302 response with a Location header restarts the
whole download at that location — redirects are followed recursively with
no depth limit, so a second (or any later) redirect in a chain is
followed as well, for both the video and the image download helper. -/
theorem downloadVideo_redirect_unbounded :
    (∀ (allowed : List (List String)) (web : UrlParts → HttpResp) (fuel : ℕ)
        (url loc : UrlParts),
        (validateDownloadUrl allowed url).valid = true →
        ((web url).statusCode = 301 ∨ (web url).statusCode = 302) →
        (web url).location = some loc →
        downloadVideo allowed web (fuel + 1) url = downloadVideo allowed web fuel loc) ∧
    (∀ (allowed : List (List String)) (web : UrlParts → HttpResp) (fuel : ℕ)
        (url loc : UrlParts),
        (validateImageUrl allowed url).valid = true →
        ((web url).statusCode = 301 ∨ (web url).statusCode = 302) →
        (web url).location = some loc →
        downloadImage allowed web (fuel + 1) url = downloadImage allowed web fuel loc) :=
  ⟨downloadVideo_step, downloadImage_step⟩

/-- Witness for C8: the first redirect of the concrete chain. -/
theorem downloadVideo_redirect_unbounded_witness :
    downloadVideo [["*"]] webChain 10 urlA = downloadVideo [["*"]] webChain 9 urlB :=
  downloadVideo_redirect_unbounded.1 [["*"]] webChain 9 urlA urlB (by decide)
    (Or.inr (by decide)) (by decide)
